import Mathlib

/-!
Gobmarks: bookmark validation and authorization guards.

A shallow embedding of `pkg/gobmarks/bookmark.go`.

* Go strings are embedded as `String`; Go's builtin `len` on a string is the
  number of bytes of its UTF-8 encoding, `String.utf8ByteSize`, while
  `String.length` counts characters.
* `*string` fields are addresses into an explicit heap of string cells, so that
  pointer identity (`==` on pointers) and the pointed-to value are distinct notions.
* `*Bookmark` arguments are non-nil; the pointee is passed explicitly and the
  method with a pointer receiver hands the pointee back next to its result.
-/

set_option autoImplicit false

namespace Gobmarks

/-! ## Strings, formatting and errors -/

/-- Go's builtin `len` on a string: the number of bytes. -/
def len (s : String) : Nat := s.utf8ByteSize

/-- The part of Go's `fmt.Sprintf` that the package uses, on the characters of
the format: every `%d` verb is replaced by the decimal form of the next integer
argument and every other character is copied. It covers the formats whose only
verb is `%d`, given as many integer arguments as verbs, which is how `Validate`
calls it. -/
def sprintfChars : List Char → List Int → List Char
  | [], _ => []
  | [c], _ => [c]
  | c :: d :: cs, args =>
    if c = '%' ∧ d = 'd' then
      match args with
      | a :: rest => (toString a).data ++ sprintfChars cs rest
      | [] => c :: sprintfChars (d :: cs) args
    else c :: sprintfChars (d :: cs) args

/-- Go's `fmt.Sprintf`, restricted to integer arguments. -/
def Sprintf (format : String) (args : List Int) : String :=
  String.mk (sprintfChars format.data args)

/-- Modelled from the spec: the error kind "invalid input" (`EINVALID`); the
declaration of the error codes is not part of this file's source. -/
def EINVALID : String := "invalid input"

/-- Modelled from the spec: the error kind "not found" (`ENOTFOUND`). -/
def ENOTFOUND : String := "not found"

/-- Modelled from the spec: the error kind "unauthorized" (`EUNAUTHORIZED`). -/
def EUNAUTHORIZED : String := "unauthorized"

/-- Modelled from the spec: an application error is an error kind carrying a
human-readable message; the `Error` type is declared outside this file's source. -/
structure Error where
  Code : String
  Message : String
  deriving DecidableEq, Repr

/-- Modelled from the spec: `NewError(code, format, args...)`, declared outside
this file's source, builds the error of kind `code` whose message is the format
with its arguments filled in. -/
def NewError (code : String) (format : String) (args : List Int) : Error :=
  { Code := code, Message := Sprintf format args }

/-! ## Bookmark -/

def MaxBookmarkTitleLen : Nat := 255
def MaxBookmarkUrlLen : Nat := 255
def MaxBookmarkDescriptionLen : Nat := 255

/-- Bookmark represents a bookmark in the system. -/
structure Bookmark where
  ID : String
  UserID : String
  Title : String
  Url : String
  Description : String
  Html : String
  CreatedAt : Int
  UpdatedAt : Int
  RemovedAt : Int
  deriving DecidableEq, Repr

/-- The method `func (b *Bookmark) Validate() error`: the first component is the returned
error (`none` is Go's `nil`), the second the bookmark behind the receiver after
the call. -/
def Bookmark.Validate (b : Bookmark) : Option Error × Bookmark :=
  if b.UserID = "" then
    (some (NewError EINVALID "User ID required." []), b)
  else if b.Title = "" then
    (some (NewError EINVALID "Title required." []), b)
  else if len b.Title > MaxBookmarkTitleLen then
    (some (NewError EINVALID "Title must be less than %d characters." [MaxBookmarkTitleLen]), b)
  else if b.Url = "" then
    (some (NewError EINVALID "Url required." []), b)
  else if len b.Url > MaxBookmarkUrlLen then
    (some (NewError EINVALID "Url must be less than %d characters." [MaxBookmarkUrlLen]), b)
  else if b.Description ≠ "" ∧ len b.Description > MaxBookmarkDescriptionLen then
    (some (NewError EINVALID "Description must be less than %d characters."
      [MaxBookmarkDescriptionLen]), b)
  else
    (none, b)

/-! ## Execution context -/

/-- Modelled from the spec: the caller's user object, with its identifier and
the demo-account flag; the `User` type is declared outside this file's source. -/
structure User where
  ID : String
  IsDemo : Bool
  deriving DecidableEq, Repr

/-- Modelled from the spec: the execution context carries the caller's
identity, if there is one. -/
structure Context where
  user : Option User
  deriving DecidableEq, Repr

/-- Modelled from the spec: `UserFromContext` returns the caller's user object,
`none` (Go's `nil`) for an unauthenticated context. -/
def UserFromContext (ctx : Context) : Option User := ctx.user

/-- Modelled from the spec: `UserIDFromContext` returns the caller's
identifier, the empty string if absent or unauthenticated. -/
def UserIDFromContext (ctx : Context) : String :=
  match UserFromContext ctx with
  | some user => user.ID
  | none => ""

/-! ## Pointers to strings -/

/-- The string variables allocated so far; address `a` holds `cells[a]`. -/
structure Heap where
  cells : List String
  deriving DecidableEq, Repr

/-- A `*string`: `none` is `nil`, `some a` the address of a string variable. -/
abbrev StringPtr := Option Nat

/-- Declaring a new string variable holding `s` and taking its address. -/
def Heap.alloc (h : Heap) (s : String) : Heap × Nat :=
  ({ cells := h.cells ++ [s] }, h.cells.length)

/-- Dereference: the string a pointer points to (`none` for `nil`). -/
def Heap.deref (h : Heap) (p : StringPtr) : Option String :=
  match p with
  | none => none
  | some a => h.cells[a]?

/-- A pointer of a running program is `nil` or the address of a variable that
has been allocated. -/
def Heap.valid (h : Heap) (p : StringPtr) : Prop :=
  match p with
  | none => True
  | some a => a < h.cells.length

instance (h : Heap) (p : StringPtr) : Decidable (h.valid p) := by
  unfold Heap.valid; split <;> infer_instance

/-- BookmarkFilter represents a filter passed to FindBookmarks(). -/
structure BookmarkFilter where
  ID : StringPtr
  UserID : StringPtr
  Offset : Int
  Limit : Int
  deriving DecidableEq, Repr

/-- BookmarkUpdate represents a set of fields to be updated via UpdateBookmark(). -/
structure BookmarkUpdate where
  Title : StringPtr
  Url : StringPtr
  Description : StringPtr
  Html : StringPtr
  deriving DecidableEq, Repr

/-- The guard `CanFindBookmark(ctx, filter)`, run in heap `h`: `id` is a new local
variable, `&id` its address, and `filter.UserID == &id` compares addresses. -/
def CanFindBookmark (h : Heap) (ctx : Context) (filter : BookmarkFilter) : Bool :=
  let id := UserIDFromContext ctx
  let (_, addrId) := h.alloc id
  decide (id ≠ "") && decide (filter.UserID = some addrId)

/-- The guard `CanUpdateBookmark(ctx, bookmark)`: `user != nil && user.IsDemo`
is evaluated left to right, so the flag is read only when there is a user. -/
def CanUpdateBookmark (ctx : Context) (bookmark : Bookmark) : Bool :=
  if (match UserFromContext ctx with
      | some user => user.IsDemo
      | none => false) = true then
    false
  else
    let id := UserIDFromContext ctx
    decide (id ≠ "") && decide (bookmark.UserID = id)

/-! ## The checks of `Validate` as the specification lists them -/

/-- Check number `k` of the specification's list fails on `b`:
(1) owner non-empty, (2) title non-empty, (3) title length at most 255, (4) URL
non-empty, (5) URL length at most 255, (6) description length at most 255. -/
def violates (k : Nat) (b : Bookmark) : Prop :=
  match k with
  | 1 => b.UserID = ""
  | 2 => b.Title = ""
  | 3 => 255 < len b.Title
  | 4 => b.Url = ""
  | 5 => 255 < len b.Url
  | 6 => 255 < len b.Description
  | _ => False

instance (k : Nat) (b : Bookmark) : Decidable (violates k b) := by
  unfold violates; split <;> infer_instance

/-- The message that belongs to check number `k`. -/
def checkMessage (k : Nat) : String :=
  match k with
  | 1 => "User ID required."
  | 2 => "Title required."
  | 3 => "Title must be less than 255 characters."
  | 4 => "Url required."
  | 5 => "Url must be less than 255 characters."
  | 6 => "Description must be less than 255 characters."
  | _ => ""

/-! ## Example data -/

/-- A string of `n` copies of the character `c`. -/
def repeatChar (n : Nat) (c : Char) : String := String.mk (List.replicate n c)

/-- A bookmark with the given validated fields and nothing else set. -/
def mkBookmark (userID title url description : String) : Bookmark :=
  { ID := "", UserID := userID, Title := title, Url := url, Description := description,
    Html := "", CreatedAt := 0, UpdatedAt := 0, RemovedAt := 0 }

/-- The context of an authenticated caller. -/
def ctxOf (id : String) (isDemo : Bool) : Context :=
  { user := some { ID := id, IsDemo := isDemo } }

/-- The context of an unauthenticated caller. -/
def ctxAnonymous : Context := { user := none }

/-! ## Facts about strings -/

theorem len_mk (cs : List Char) : len (String.mk cs) = String.utf8Len cs := rfl

theorem len_repeatChar (n : Nat) (c : Char) : len (repeatChar n c) = n * c.utf8Size := by
  unfold repeatChar
  rw [len_mk]
  induction n with
  | zero => simp
  | succ k ih => simp [List.replicate_succ, ih, Nat.succ_mul]

theorem length_repeatChar (n : Nat) (c : Char) : (repeatChar n c).length = n := by
  simp [repeatChar, String.length]

theorem repeatChar_ne_empty (n : Nat) (c : Char) (hn : 0 < n) : repeatChar n c ≠ "" := by
  intro h
  have hl := congrArg String.length h
  rw [length_repeatChar] at hl
  simp at hl
  omega

theorem len_eq_zero_iff (s : String) : len s = 0 ↔ s = "" := by
  cases s with
  | mk cs =>
    rw [len_mk, String.utf8Len_eq_zero]
    constructor
    · intro h; rw [h]
    · intro h; exact congrArg String.data h

theorem len_empty : len "" = 0 := (len_eq_zero_iff "").mpr rfl

/-- A string has at least as many bytes as characters. -/
theorem length_le_len (s : String) : s.length ≤ len s := by
  cases s with
  | mk cs =>
    rw [len_mk]
    show cs.length ≤ String.utf8Len cs
    induction cs with
    | nil => simp
    | cons c cs ih =>
      have hc := c.utf8Size_pos
      simp only [List.length_cons, String.utf8Len_cons]
      omega

/-! ## The errors built by `Validate` -/

theorem newError_userID :
    NewError EINVALID "User ID required." [] = ⟨EINVALID, "User ID required."⟩ := by decide

theorem newError_title_required :
    NewError EINVALID "Title required." [] = ⟨EINVALID, "Title required."⟩ := by decide

theorem newError_title_len :
    NewError EINVALID "Title must be less than %d characters." [MaxBookmarkTitleLen]
      = ⟨EINVALID, "Title must be less than 255 characters."⟩ := by decide

theorem newError_url_required :
    NewError EINVALID "Url required." [] = ⟨EINVALID, "Url required."⟩ := by decide

theorem newError_url_len :
    NewError EINVALID "Url must be less than %d characters." [MaxBookmarkUrlLen]
      = ⟨EINVALID, "Url must be less than 255 characters."⟩ := by decide

theorem newError_description_len :
    NewError EINVALID "Description must be less than %d characters." [MaxBookmarkDescriptionLen]
      = ⟨EINVALID, "Description must be less than 255 characters."⟩ := by decide

/-! ## `Validate`, branch by branch -/

theorem validate_of_userID_empty (b : Bookmark) (h1 : b.UserID = "") :
    b.Validate.1 = some ⟨EINVALID, "User ID required."⟩ := by
  simp [Bookmark.Validate, h1, newError_userID]

theorem validate_of_title_empty (b : Bookmark) (h1 : b.UserID ≠ "") (h2 : b.Title = "") :
    b.Validate.1 = some ⟨EINVALID, "Title required."⟩ := by
  simp [Bookmark.Validate, h1, h2, newError_title_required]

theorem validate_of_title_long (b : Bookmark) (h1 : b.UserID ≠ "") (h2 : b.Title ≠ "")
    (h3 : 255 < len b.Title) :
    b.Validate.1 = some ⟨EINVALID, "Title must be less than 255 characters."⟩ := by
  have h3' : len b.Title > MaxBookmarkTitleLen := h3
  simp only [Bookmark.Validate, if_neg h1, if_neg h2, if_pos h3', newError_title_len]

theorem validate_of_url_empty (b : Bookmark) (h1 : b.UserID ≠ "") (h2 : b.Title ≠ "")
    (h3 : len b.Title ≤ 255) (h4 : b.Url = "") :
    b.Validate.1 = some ⟨EINVALID, "Url required."⟩ := by
  have h3' : ¬ len b.Title > MaxBookmarkTitleLen := Nat.not_lt.mpr h3
  simp only [Bookmark.Validate, if_neg h1, if_neg h2, if_neg h3', if_pos h4,
    newError_url_required]

theorem validate_of_url_long (b : Bookmark) (h1 : b.UserID ≠ "") (h2 : b.Title ≠ "")
    (h3 : len b.Title ≤ 255) (h4 : b.Url ≠ "") (h5 : 255 < len b.Url) :
    b.Validate.1 = some ⟨EINVALID, "Url must be less than 255 characters."⟩ := by
  have h3' : ¬ len b.Title > MaxBookmarkTitleLen := Nat.not_lt.mpr h3
  have h5' : len b.Url > MaxBookmarkUrlLen := h5
  simp only [Bookmark.Validate, if_neg h1, if_neg h2, if_neg h3', if_neg h4, if_pos h5',
    newError_url_len]

theorem validate_of_description_long (b : Bookmark) (h1 : b.UserID ≠ "") (h2 : b.Title ≠ "")
    (h3 : len b.Title ≤ 255) (h4 : b.Url ≠ "") (h5 : len b.Url ≤ 255)
    (h6 : 255 < len b.Description) :
    b.Validate.1 = some ⟨EINVALID, "Description must be less than 255 characters."⟩ := by
  have h3' : ¬ len b.Title > MaxBookmarkTitleLen := Nat.not_lt.mpr h3
  have h5' : ¬ len b.Url > MaxBookmarkUrlLen := Nat.not_lt.mpr h5
  have hne : b.Description ≠ "" := by
    intro he
    rw [he, len_empty] at h6
    omega
  have h6' : b.Description ≠ "" ∧ len b.Description > MaxBookmarkDescriptionLen := ⟨hne, h6⟩
  simp only [Bookmark.Validate, if_neg h1, if_neg h2, if_neg h3', if_neg h4, if_neg h5',
    if_pos h6', newError_description_len]

theorem validate_of_all_ok (b : Bookmark) (h1 : b.UserID ≠ "") (h2 : b.Title ≠ "")
    (h3 : len b.Title ≤ 255) (h4 : b.Url ≠ "") (h5 : len b.Url ≤ 255)
    (h6 : len b.Description ≤ 255) :
    b.Validate.1 = none := by
  have h3' : ¬ len b.Title > MaxBookmarkTitleLen := Nat.not_lt.mpr h3
  have h5' : ¬ len b.Url > MaxBookmarkUrlLen := Nat.not_lt.mpr h5
  have h6' : ¬ (b.Description ≠ "" ∧ len b.Description > MaxBookmarkDescriptionLen) :=
    fun h => Nat.not_lt.mpr h6 h.2
  simp only [Bookmark.Validate, if_neg h1, if_neg h2, if_neg h3', if_neg h4, if_neg h5',
    if_neg h6']

/-- Whatever `Validate` reports is an "invalid input" error. -/
theorem validate_error_code (b : Bookmark) (e : Error) (h : b.Validate.1 = some e) :
    e.Code = EINVALID := by
  unfold Bookmark.Validate at h
  split_ifs at h <;> simp [NewError] at h <;> rw [← h]

/-- The receiver is handed back as it was. -/
theorem validate_receiver (b : Bookmark) : b.Validate.2 = b := by
  unfold Bookmark.Validate
  split_ifs <;> rfl

/-- The method `Validate` returns `nil` exactly on the bookmarks that pass all six checks. -/
theorem validate_none_iff (b : Bookmark) :
    b.Validate.1 = none ↔
      b.UserID ≠ "" ∧ b.Title ≠ "" ∧ len b.Title ≤ 255 ∧ b.Url ≠ "" ∧ len b.Url ≤ 255
        ∧ len b.Description ≤ 255 := by
  constructor
  · intro h
    by_cases h1 : b.UserID = ""
    · rw [validate_of_userID_empty b h1] at h; cases h
    by_cases h2 : b.Title = ""
    · rw [validate_of_title_empty b h1 h2] at h; cases h
    by_cases h3 : 255 < len b.Title
    · rw [validate_of_title_long b h1 h2 h3] at h; cases h
    have h3' : len b.Title ≤ 255 := Nat.not_lt.mp h3
    by_cases h4 : b.Url = ""
    · rw [validate_of_url_empty b h1 h2 h3' h4] at h; cases h
    by_cases h5 : 255 < len b.Url
    · rw [validate_of_url_long b h1 h2 h3' h4 h5] at h; cases h
    have h5' : len b.Url ≤ 255 := Nat.not_lt.mp h5
    by_cases h6 : 255 < len b.Description
    · rw [validate_of_description_long b h1 h2 h3' h4 h5' h6] at h; cases h
    exact ⟨h1, h2, h3', h4, h5', Nat.not_lt.mp h6⟩
  · rintro ⟨h1, h2, h3, h4, h5, h6⟩
    exact validate_of_all_ok b h1 h2 h3 h4 h5 h6

/-- A bookmark that fails a check gets an "invalid input" error. -/
theorem validate_rejects (b : Bookmark) (h : b.Validate.1 ≠ none) :
    ∃ e, b.Validate.1 = some e ∧ e.Code = EINVALID := by
  cases hv : b.Validate.1 with
  | none => exact absurd hv h
  | some e => exact ⟨e, rfl, validate_error_code b e hv⟩

/-! ## Claims about `Validate` -/

/-- C1, as stated, fails: a title of 128 two-byte characters has at most 255
characters, the owner, title and URL are non-empty and the description is empty,
yet `Validate` reports the title as too long, because `len` counts bytes. -/
theorem C1_counterexample_multibyte_title :
    (mkBookmark "u1" (repeatChar 128 'é') "https://example.com" "").UserID ≠ "" ∧
    (mkBookmark "u1" (repeatChar 128 'é') "https://example.com" "").Title ≠ "" ∧
    (mkBookmark "u1" (repeatChar 128 'é') "https://example.com" "").Url ≠ "" ∧
    (mkBookmark "u1" (repeatChar 128 'é') "https://example.com" "").Title.length ≤ 255 ∧
    (mkBookmark "u1" (repeatChar 128 'é') "https://example.com" "").Url.length ≤ 255 ∧
    (mkBookmark "u1" (repeatChar 128 'é') "https://example.com" "").Description = "" ∧
    (mkBookmark "u1" (repeatChar 128 'é') "https://example.com" "").Validate.1
      = some ⟨EINVALID, "Title must be less than 255 characters."⟩ := by
  have hne : repeatChar 128 'é' ≠ "" := repeatChar_ne_empty 128 'é' (by decide)
  have hlen : len (repeatChar 128 'é') = 256 := by
    rw [len_repeatChar]; decide
  refine ⟨by decide, hne, by decide, ?_, by decide, rfl, ?_⟩
  · show (repeatChar 128 'é').length ≤ 255
    rw [length_repeatChar]; decide
  · apply validate_of_title_long
    · decide
    · exact hne
    · show 255 < len (repeatChar 128 'é')
      rw [hlen]; decide

/-- C1, amended: with lengths measured by `len`, the number of bytes, every
bookmark whose owner, title and URL are non-empty, whose title and URL have at
most 255 bytes and whose description is empty or has at most 255 bytes is
accepted: `Validate` returns `nil`. -/
theorem C1_validate_accepts_within_byte_bounds (b : Bookmark)
    (hUser : b.UserID ≠ "") (hTitle : b.Title ≠ "") (hUrl : b.Url ≠ "")
    (hTitleLen : len b.Title ≤ 255) (hUrlLen : len b.Url ≤ 255)
    (hDesc : b.Description = "" ∨ len b.Description ≤ 255) :
    b.Validate.1 = none := by
  apply validate_of_all_ok b hUser hTitle hTitleLen hUrl hUrlLen
  rcases hDesc with h | h
  · rw [h, len_empty]; exact Nat.zero_le _
  · exact h

/-- A title, a URL and a description of exactly 255 one-byte characters each
are accepted. -/
theorem C1_validate_accepts_witness :
    len (repeatChar 255 'a') = 255 ∧ len (repeatChar 255 'b') = 255 ∧
    len (repeatChar 255 'c') = 255 ∧
    (mkBookmark "u1" (repeatChar 255 'a') (repeatChar 255 'b') (repeatChar 255 'c')).Validate.1
      = none := by
  have ha : len (repeatChar 255 'a') = 255 := by rw [len_repeatChar]; decide
  have hb : len (repeatChar 255 'b') = 255 := by rw [len_repeatChar]; decide
  have hc : len (repeatChar 255 'c') = 255 := by rw [len_repeatChar]; decide
  exact ⟨ha, hb, hc,
    C1_validate_accepts_within_byte_bounds
      (mkBookmark "u1" (repeatChar 255 'a') (repeatChar 255 'b') (repeatChar 255 'c'))
      (by decide) (repeatChar_ne_empty 255 'a' (by decide))
      (repeatChar_ne_empty 255 'b' (by decide)) (le_of_eq ha) (le_of_eq hb)
      (Or.inr (le_of_eq hc))⟩

/-- C2: a bookmark whose owner, title or URL is the empty string is rejected
with an error of kind `EINVALID`, whatever its other fields hold. -/
theorem C2_validate_rejects_missing_field (b : Bookmark)
    (h : b.UserID = "" ∨ b.Title = "" ∨ b.Url = "") :
    ∃ e, b.Validate.1 = some e ∧ e.Code = EINVALID := by
  apply validate_rejects
  intro hn
  obtain ⟨h1, h2, _, h4, _, _⟩ := (validate_none_iff b).mp hn
  rcases h with h | h | h
  · exact h1 h
  · exact h2 h
  · exact h4 h

/-- A bookmark with an owner and a title but no URL is rejected. -/
theorem C2_validate_rejects_missing_field_witness :
    ∃ e, (mkBookmark "u1" "My Site" "" "notes").Validate.1 = some e ∧ e.Code = EINVALID :=
  C2_validate_rejects_missing_field (mkBookmark "u1" "My Site" "" "notes")
    (Or.inr (Or.inr rfl))

/-- C3, as stated, fails: a bookmark with a title of 300 characters and no
owner is rejected with the message of the owner check, which names neither the
title nor the limit. -/
theorem C3_counterexample_earlier_check_wins :
    255 < (mkBookmark "" (repeatChar 300 'a') "https://example.com" "").Title.length ∧
    255 < len (mkBookmark "" (repeatChar 300 'a') "https://example.com" "").Title ∧
    (mkBookmark "" (repeatChar 300 'a') "https://example.com" "").Validate.1
      = some ⟨EINVALID, "User ID required."⟩ ∧
    (mkBookmark "" (repeatChar 300 'a') "https://example.com" "").Validate.1
      ≠ some ⟨EINVALID, "Title must be less than 255 characters."⟩ := by
  have hv := validate_of_userID_empty
    (mkBookmark "" (repeatChar 300 'a') "https://example.com" "") rfl
  refine ⟨?_, ?_, hv, ?_⟩
  · show 255 < (repeatChar 300 'a').length
    rw [length_repeatChar]; decide
  · show 255 < len (repeatChar 300 'a')
    rw [len_repeatChar]; decide
  · rw [hv]; decide

/-- C3, amended: a bookmark whose title, URL or description has more than 255
bytes is rejected with an `EINVALID` error, and the message names the over-long
field and the limit 255 whenever all the checks before that field's length
check pass. -/
theorem C3_validate_rejects_overlong (b : Bookmark)
    (h : 255 < len b.Title ∨ 255 < len b.Url ∨ 255 < len b.Description) :
    (∃ e, b.Validate.1 = some e ∧ e.Code = EINVALID) ∧
    (b.UserID ≠ "" → 255 < len b.Title →
      b.Validate.1 = some ⟨EINVALID, "Title must be less than 255 characters."⟩) ∧
    (b.UserID ≠ "" → b.Title ≠ "" → len b.Title ≤ 255 → 255 < len b.Url →
      b.Validate.1 = some ⟨EINVALID, "Url must be less than 255 characters."⟩) ∧
    (b.UserID ≠ "" → b.Title ≠ "" → len b.Title ≤ 255 → b.Url ≠ "" → len b.Url ≤ 255 →
      255 < len b.Description →
      b.Validate.1 = some ⟨EINVALID, "Description must be less than 255 characters."⟩) := by
  refine ⟨?_, ?_, ?_, ?_⟩
  · apply validate_rejects
    intro hn
    obtain ⟨_, _, h3, _, h5, h6⟩ := (validate_none_iff b).mp hn
    omega
  · intro h1 h3
    have h2 : b.Title ≠ "" := by
      intro he
      rw [he, len_empty] at h3
      omega
    exact validate_of_title_long b h1 h2 h3
  · intro h1 h2 h3 h5
    have h4 : b.Url ≠ "" := by
      intro he
      rw [he, len_empty] at h5
      omega
    exact validate_of_url_long b h1 h2 h3 h4 h5
  · intro h1 h2 h3 h4 h5 h6
    exact validate_of_description_long b h1 h2 h3 h4 h5 h6

/-- A description of 300 bytes on an otherwise valid bookmark is reported as
such. -/
theorem C3_validate_rejects_overlong_witness :
    255 < len (repeatChar 300 'd') ∧
    (mkBookmark "u1" "My Site" "https://example.com" (repeatChar 300 'd')).Validate.1
      = some ⟨EINVALID, "Description must be less than 255 characters."⟩ := by
  have hd : 255 < len (repeatChar 300 'd') := by rw [len_repeatChar]; decide
  exact ⟨hd,
    (C3_validate_rejects_overlong
      (mkBookmark "u1" "My Site" "https://example.com" (repeatChar 300 'd'))
      (Or.inr (Or.inr hd))).2.2.2
      (by decide) (by decide) (by decide) (by decide) (by decide) hd⟩

/-- C4: `Validate` fails fast in the fixed order of the six checks: when check
`k` is violated and no check before it is, the result is the `EINVALID` error
with the message of check `k`, whatever the later checks would say. -/
theorem C4_validate_first_violation_wins (b : Bookmark) (k : Nat)
    (hk : violates k b) (hfirst : ∀ j, j < k → ¬ violates j b) :
    b.Validate.1 = some ⟨EINVALID, checkMessage k⟩ := by
  have n1 : k > 1 → b.UserID ≠ "" := fun hlt => hfirst 1 hlt
  have n2 : k > 2 → b.Title ≠ "" := fun hlt => hfirst 2 hlt
  have n3 : k > 3 → len b.Title ≤ 255 := fun hlt => Nat.not_lt.mp (hfirst 3 hlt)
  have n4 : k > 4 → b.Url ≠ "" := fun hlt => hfirst 4 hlt
  have n5 : k > 5 → len b.Url ≤ 255 := fun hlt => Nat.not_lt.mp (hfirst 5 hlt)
  match k, hk with
  | 1, hk => exact validate_of_userID_empty b hk
  | 2, hk => exact validate_of_title_empty b (n1 (by decide)) hk
  | 3, hk => exact validate_of_title_long b (n1 (by decide)) (n2 (by decide)) hk
  | 4, hk =>
    exact validate_of_url_empty b (n1 (by decide)) (n2 (by decide)) (n3 (by decide)) hk
  | 5, hk =>
    exact validate_of_url_long b (n1 (by decide)) (n2 (by decide)) (n3 (by decide))
      (n4 (by decide)) hk
  | 6, hk =>
    exact validate_of_description_long b (n1 (by decide)) (n2 (by decide)) (n3 (by decide))
      (n4 (by decide)) (n5 (by decide)) hk

/-- An over-long title wins over an empty URL and an over-long description,
which come later in the order. -/
theorem C4_validate_first_violation_wins_witness :
    violates 3 (mkBookmark "u1" (repeatChar 300 'a') "" (repeatChar 300 'd')) ∧
    violates 4 (mkBookmark "u1" (repeatChar 300 'a') "" (repeatChar 300 'd')) ∧
    violates 6 (mkBookmark "u1" (repeatChar 300 'a') "" (repeatChar 300 'd')) ∧
    (mkBookmark "u1" (repeatChar 300 'a') "" (repeatChar 300 'd')).Validate.1
      = some ⟨EINVALID, "Title must be less than 255 characters."⟩ := by
  have h3 : violates 3 (mkBookmark "u1" (repeatChar 300 'a') "" (repeatChar 300 'd')) := by
    show 255 < len (repeatChar 300 'a')
    rw [len_repeatChar]; decide
  have h6 : violates 6 (mkBookmark "u1" (repeatChar 300 'a') "" (repeatChar 300 'd')) := by
    show 255 < len (repeatChar 300 'd')
    rw [len_repeatChar]; decide
  refine ⟨h3, rfl, h6,
    C4_validate_first_violation_wins
      (mkBookmark "u1" (repeatChar 300 'a') "" (repeatChar 300 'd')) 3 h3 ?_⟩
  intro j hj
  match j, hj with
  | 0, _ => exact fun hf => hf
  | 1, _ => exact (by decide : ("u1" : String) ≠ "")
  | 2, _ => exact repeatChar_ne_empty 300 'a' (by decide)

/-- C9: `Validate` depends on the owner, title, URL and description only: two
bookmarks that agree on these four fields get the same result, whatever their
identifier, HTML and timestamps are, and `Validate` leaves the bookmark behind
its receiver unchanged. -/
theorem C9_validate_pure (b b' : Bookmark) (hUser : b.UserID = b'.UserID)
    (hTitle : b.Title = b'.Title) (hUrl : b.Url = b'.Url)
    (hDesc : b.Description = b'.Description) :
    b.Validate.1 = b'.Validate.1 ∧ b.Validate.2 = b ∧ b'.Validate.2 = b' := by
  refine ⟨?_, validate_receiver b, validate_receiver b'⟩
  unfold Bookmark.Validate
  rw [hUser, hTitle, hUrl, hDesc]
  split_ifs <;> rfl

/-- Two bookmarks with the same validated fields and different identifier,
HTML and timestamps are told the same thing. -/
theorem C9_validate_pure_witness :
    (Bookmark.mk "b1" "u1" "" "https://example.com" "d" "<p>x</p>" 1 2 3).Validate.1
      = (Bookmark.mk "b2" "u1" "" "https://example.com" "d" "" 0 0 0).Validate.1 ∧
    (Bookmark.mk "b1" "u1" "" "https://example.com" "d" "<p>x</p>" 1 2 3).Validate.2
      = Bookmark.mk "b1" "u1" "" "https://example.com" "d" "<p>x</p>" 1 2 3 ∧
    (Bookmark.mk "b2" "u1" "" "https://example.com" "d" "" 0 0 0).Validate.2
      = Bookmark.mk "b2" "u1" "" "https://example.com" "d" "" 0 0 0 :=
  C9_validate_pure
    (Bookmark.mk "b1" "u1" "" "https://example.com" "d" "<p>x</p>" 1 2 3)
    (Bookmark.mk "b2" "u1" "" "https://example.com" "d" "" 0 0 0) rfl rfl rfl rfl

/-! ## Claims about the authorization guards -/

/-- The address of a newly declared variable differs from every pointer that
existed before. -/
theorem alloc_fresh (h : Heap) (s : String) (p : StringPtr) (hv : h.valid p) :
    p ≠ some (h.alloc s).2 := by
  cases p with
  | none => exact fun hf => Option.noConfusion hf
  | some a =>
    intro he
    have ha : a < h.cells.length := hv
    have hEq : a = h.cells.length := Option.some.inj he
    omega

/-- The guard `CanFindBookmark` answers `false` on every filter whose owner pointer
existed before the call. -/
theorem canFind_false (h : Heap) (ctx : Context) (filter : BookmarkFilter)
    (hv : h.valid filter.UserID) : CanFindBookmark h ctx filter = false := by
  have hne := alloc_fresh h (UserIDFromContext ctx) filter.UserID hv
  simp only [CanFindBookmark, decide_eq_false hne, Bool.and_false]

/-- C5 fails on the code: for the caller "u1" and a filter whose owner pointer
points to a string "u1", `CanFindBookmark` returns `false`, not `true`. -/
theorem C5_canFind_denies_matching_owner :
    UserIDFromContext (ctxOf "u1" false) = "u1" ∧
    Heap.valid { cells := ["u1"] } (some 0) ∧
    Heap.deref { cells := ["u1"] } (some 0) = some "u1" ∧
    CanFindBookmark { cells := ["u1"] } (ctxOf "u1" false)
      { ID := none, UserID := some 0, Offset := 0, Limit := 0 } = false := by
  decide

/-- C6: `CanFindBookmark` never over-authorizes. If it returns `true`, the
caller id is non-empty and the filter's owner is present and equal to it; so it
returns `false` for an unauthenticated context, for a filter without an owner
and for a filter owner that differs from the caller. -/
theorem C6_canFind_never_over_authorizes (h : Heap) (ctx : Context)
    (filter : BookmarkFilter) (hv : h.valid filter.UserID) :
    (CanFindBookmark h ctx filter = true →
      UserIDFromContext ctx ≠ "" ∧ h.deref filter.UserID = some (UserIDFromContext ctx)) ∧
    (UserIDFromContext ctx = "" → CanFindBookmark h ctx filter = false) ∧
    (filter.UserID = none → CanFindBookmark h ctx filter = false) ∧
    (h.deref filter.UserID ≠ some (UserIDFromContext ctx) →
      CanFindBookmark h ctx filter = false) := by
  have hf := canFind_false h ctx filter hv
  refine ⟨?_, fun _ => hf, fun _ => hf, fun _ => hf⟩
  intro ht
  rw [hf] at ht
  exact Bool.noConfusion ht

/-- The caller "u1" may not list with a filter for the owner "u2". -/
theorem C6_canFind_never_over_authorizes_witness :
    Heap.deref { cells := ["u2"] } (some 0) ≠ some (UserIDFromContext (ctxOf "u1" false)) ∧
    CanFindBookmark { cells := ["u2"] } (ctxOf "u1" false)
      { ID := none, UserID := some 0, Offset := 0, Limit := 10 } = false :=
  ⟨by decide,
    (C6_canFind_never_over_authorizes { cells := ["u2"] } (ctxOf "u1" false)
      { ID := none, UserID := some 0, Offset := 0, Limit := 10 } (by decide)).2.2.2
      (by decide)⟩

/-- C7: a demo caller may update no bookmark, not even one of its own. -/
theorem C7_canUpdate_denies_demo (ctx : Context) (user : User) (bookmark : Bookmark)
    (hUser : UserFromContext ctx = some user) (hDemo : user.IsDemo = true) :
    CanUpdateBookmark ctx bookmark = false := by
  simp [CanUpdateBookmark, hUser, hDemo]

/-- The demo caller "u1" may not update a bookmark owned by "u1". -/
theorem C7_canUpdate_denies_demo_witness :
    (mkBookmark "u1" "My Site" "https://example.com" "").UserID
      = UserIDFromContext (ctxOf "u1" true) ∧
    CanUpdateBookmark (ctxOf "u1" true) (mkBookmark "u1" "My Site" "https://example.com" "")
      = false :=
  ⟨by decide,
    C7_canUpdate_denies_demo (ctxOf "u1" true) { ID := "u1", IsDemo := true }
      (mkBookmark "u1" "My Site" "https://example.com" "") rfl rfl⟩

/-- C8: for a caller that is not a demo account (no user, or a user without the
demo flag), `CanUpdateBookmark` returns `true` exactly when the caller id is
non-empty and the bookmark's owner equals it. -/
theorem C8_canUpdate_iff_owner (ctx : Context) (bookmark : Bookmark)
    (hNotDemo : UserFromContext ctx = none ∨
      ∃ user, UserFromContext ctx = some user ∧ user.IsDemo = false) :
    CanUpdateBookmark ctx bookmark = true ↔
      UserIDFromContext ctx ≠ "" ∧ bookmark.UserID = UserIDFromContext ctx := by
  rcases hNotDemo with hn | ⟨user, hu, hd⟩
  · simp [CanUpdateBookmark, hn]
  · simp [CanUpdateBookmark, hu, hd]

/-- The caller "u1" may update a bookmark of "u1" but not one of "u2", and an
unauthenticated caller may not update a bookmark without owner. -/
theorem C8_canUpdate_iff_owner_witness :
    CanUpdateBookmark (ctxOf "u1" false) (mkBookmark "u1" "t" "u" "") = true ∧
    CanUpdateBookmark (ctxOf "u1" false) (mkBookmark "u2" "t" "u" "") = false ∧
    CanUpdateBookmark ctxAnonymous (mkBookmark "" "t" "u" "") = false := by
  refine ⟨?_, ?_, ?_⟩
  · exact (C8_canUpdate_iff_owner (ctxOf "u1" false) (mkBookmark "u1" "t" "u" "")
      (Or.inr ⟨{ ID := "u1", IsDemo := false }, rfl, rfl⟩)).mpr ⟨by decide, by decide⟩
  · have hiff := C8_canUpdate_iff_owner (ctxOf "u1" false) (mkBookmark "u2" "t" "u" "")
      (Or.inr ⟨{ ID := "u1", IsDemo := false }, rfl, rfl⟩)
    cases hc : CanUpdateBookmark (ctxOf "u1" false) (mkBookmark "u2" "t" "u" "") with
    | false => rfl
    | true => exact absurd (hiff.mp hc).2 (by decide)
  · have hiff := C8_canUpdate_iff_owner ctxAnonymous (mkBookmark "" "t" "u" "") (Or.inl rfl)
    cases hc : CanUpdateBookmark ctxAnonymous (mkBookmark "" "t" "u" "") with
    | false => rfl
    | true => exact absurd (hiff.mp hc).1 (by decide)

/-- C10: as written, `CanFindBookmark` compares the filter's owner pointer with
the address of the new local variable `id`; no pointer that existed before the
call equals that address, so the result is `false` for every context and every
filter, also when the filter's owner string equals the caller's id. -/
theorem C10_canFind_always_false (h : Heap) (ctx : Context) (filter : BookmarkFilter)
    (hv : h.valid filter.UserID) :
    filter.UserID ≠ some (h.alloc (UserIDFromContext ctx)).2 ∧
    CanFindBookmark h ctx filter = false :=
  ⟨alloc_fresh h (UserIDFromContext ctx) filter.UserID hv, canFind_false h ctx filter hv⟩

/-- The filter's owner and the caller's id are both "u1", held in two
variables, and the guard still answers `false`. -/
theorem C10_canFind_always_false_witness :
    Heap.deref { cells := ["u2", "u1"] } (some 1) = some (UserIDFromContext (ctxOf "u1" true)) ∧
    Heap.deref (Heap.alloc { cells := ["u2", "u1"] } "u1").1
      (some (Heap.alloc { cells := ["u2", "u1"] } "u1").2) = some "u1" ∧
    CanFindBookmark { cells := ["u2", "u1"] } (ctxOf "u1" true)
      { ID := none, UserID := some 1, Offset := 0, Limit := 20 } = false :=
  ⟨by decide, by decide,
    (C10_canFind_always_false { cells := ["u2", "u1"] } (ctxOf "u1" true)
      { ID := none, UserID := some 1, Offset := 0, Limit := 20 } (by decide)).2⟩

/-! ## Further claims about `Validate` and the guards -/

/-- C11, as stated, fails: a bookmark whose title, URL and description have
exactly 255 bytes (and 255 characters) each is accepted, so an accepted title
need not be strictly shorter than `MaxBookmarkTitleLen`. -/
theorem C11_counterexample_length_255_accepted :
    (mkBookmark "u1" (repeatChar 255 'x') (repeatChar 255 'y') (repeatChar 255 'z')).Validate.1
      = none ∧
    len (mkBookmark "u1" (repeatChar 255 'x') (repeatChar 255 'y') (repeatChar 255 'z')).Title
      = 255 ∧
    (mkBookmark "u1" (repeatChar 255 'x') (repeatChar 255 'y') (repeatChar 255 'z')).Title.length
      = 255 ∧
    ¬ len (mkBookmark "u1" (repeatChar 255 'x') (repeatChar 255 'y') (repeatChar 255 'z')).Title
      < MaxBookmarkTitleLen := by
  have hx : len (repeatChar 255 'x') = 255 := by rw [len_repeatChar]; decide
  have hy : len (repeatChar 255 'y') = 255 := by rw [len_repeatChar]; decide
  have hz : len (repeatChar 255 'z') = 255 := by rw [len_repeatChar]; decide
  refine ⟨?_, hx, length_repeatChar 255 'x', ?_⟩
  · exact validate_of_all_ok
      (mkBookmark "u1" (repeatChar 255 'x') (repeatChar 255 'y') (repeatChar 255 'z'))
      (by decide) (repeatChar_ne_empty 255 'x' (by decide)) (le_of_eq hx)
      (repeatChar_ne_empty 255 'y' (by decide)) (le_of_eq hy) (le_of_eq hz)
  · show ¬ len (repeatChar 255 'x') < MaxBookmarkTitleLen
    rw [hx]; decide

/-- C11, amended: every bookmark that `Validate` accepts has a title, a URL and
a description of at most 255 bytes each (`len` at most `MaxBookmark*Len`, the
bound itself included), hence also of at most 255 characters each. -/
theorem C11_validate_accepted_within_max (b : Bookmark) (h : b.Validate.1 = none) :
    (len b.Title ≤ MaxBookmarkTitleLen ∧ len b.Url ≤ MaxBookmarkUrlLen
      ∧ len b.Description ≤ MaxBookmarkDescriptionLen) ∧
    (b.Title.length ≤ 255 ∧ b.Url.length ≤ 255 ∧ b.Description.length ≤ 255) := by
  obtain ⟨_, _, h3, _, h5, h6⟩ := (validate_none_iff b).mp h
  exact ⟨⟨h3, h5, h6⟩,
    Nat.le_trans (length_le_len b.Title) h3,
    Nat.le_trans (length_le_len b.Url) h5,
    Nat.le_trans (length_le_len b.Description) h6⟩

/-- An accepted bookmark with a URL of exactly 255 bytes stays within the
bounds. -/
theorem C11_validate_accepted_within_max_witness :
    (mkBookmark "u1" "My Site" (repeatChar 255 'w') "").Validate.1 = none ∧
    len (mkBookmark "u1" "My Site" (repeatChar 255 'w') "").Url ≤ MaxBookmarkUrlLen := by
  have hw : len (repeatChar 255 'w') = 255 := by rw [len_repeatChar]; decide
  have hv : (mkBookmark "u1" "My Site" (repeatChar 255 'w') "").Validate.1 = none :=
    validate_of_all_ok (mkBookmark "u1" "My Site" (repeatChar 255 'w') "")
      (by decide) (by decide) (by decide) (repeatChar_ne_empty 255 'w' (by decide))
      (le_of_eq hw) (by decide)
  exact ⟨hv,
    (C11_validate_accepted_within_max (mkBookmark "u1" "My Site" (repeatChar 255 'w') "")
      hv).1.2.1⟩

/-- C12: with lengths measured by `len`, the number of UTF-8 bytes, `Validate`
returns `nil` exactly when the owner, the title and the URL are non-empty and
the title, the URL and the description have at most 255 bytes each; the guard
that the description be non-empty adds nothing to its length check; and every
error returned has the code `EINVALID`, never `ENOTFOUND` or `EUNAUTHORIZED`. -/
theorem C12_validate_exact_in_bytes (b : Bookmark) :
    (b.Validate.1 = none ↔
      b.UserID ≠ "" ∧ b.Title ≠ "" ∧ len b.Title ≤ 255 ∧ b.Url ≠ "" ∧ len b.Url ≤ 255
        ∧ len b.Description ≤ 255) ∧
    ((b.Description ≠ "" ∧ len b.Description > MaxBookmarkDescriptionLen) ↔
      len b.Description > MaxBookmarkDescriptionLen) ∧
    (∀ e, b.Validate.1 = some e →
      e.Code = EINVALID ∧ e.Code ≠ ENOTFOUND ∧ e.Code ≠ EUNAUTHORIZED) := by
  refine ⟨validate_none_iff b, ⟨fun hg => hg.2, fun hl => ⟨?_, hl⟩⟩, ?_⟩
  · intro he
    rw [he, len_empty] at hl
    exact absurd hl (by decide)
  · intro e he
    have hc := validate_error_code b e he
    rw [hc]
    exact ⟨rfl, by decide, by decide⟩

/-- A title of 128 two-byte characters has 256 bytes and is rejected, with an
`EINVALID` error. -/
theorem C12_validate_exact_in_bytes_witness :
    (repeatChar 128 'ü').length = 128 ∧ len (repeatChar 128 'ü') = 256 ∧
    (mkBookmark "u1" (repeatChar 128 'ü') "https://example.com" "").Validate.1 ≠ none ∧
    (∀ e, (mkBookmark "u1" (repeatChar 128 'ü') "https://example.com" "").Validate.1 = some e →
      e.Code = EINVALID ∧ e.Code ≠ ENOTFOUND ∧ e.Code ≠ EUNAUTHORIZED) := by
  have hlen : len (repeatChar 128 'ü') = 256 := by rw [len_repeatChar]; decide
  have hc := C12_validate_exact_in_bytes
    (mkBookmark "u1" (repeatChar 128 'ü') "https://example.com" "")
  refine ⟨length_repeatChar 128 'ü', hlen, ?_, hc.2.2⟩
  intro hn
  have h3 : len (repeatChar 128 'ü') ≤ 255 := (hc.1.mp hn).2.2.1
  rw [hlen] at h3
  exact absurd h3 (by decide)

/-- C13: `CanFindBookmark` does not consult the demo flag. Two contexts that
yield the same caller id get the same answer for every filter, whichever of
them carries a demo user, while `CanUpdateBookmark` denies a demo user every
update. -/
theorem C13_canFind_ignores_demo_flag (h : Heap) (ctx ctx' : Context)
    (filter : BookmarkFilter)
    (hid : UserIDFromContext ctx = UserIDFromContext ctx') :
    CanFindBookmark h ctx filter = CanFindBookmark h ctx' filter ∧
    (∀ user, UserFromContext ctx = some user → user.IsDemo = true →
      ∀ bookmark, CanUpdateBookmark ctx bookmark = false) := by
  refine ⟨?_, ?_⟩
  · unfold CanFindBookmark
    rw [hid]
  · intro user hu hd bookmark
    simp [CanUpdateBookmark, hu, hd]

/-- The demo user "u1" and the ordinary user "u1" get the same answer to a
listing with the owner "u1", and the demo user may not update its own bookmark. -/
theorem C13_canFind_ignores_demo_flag_witness :
    UserIDFromContext (ctxOf "u1" true) = UserIDFromContext (ctxOf "u1" false) ∧
    CanFindBookmark { cells := ["u1"] } (ctxOf "u1" true)
        { ID := none, UserID := some 0, Offset := 0, Limit := 5 }
      = CanFindBookmark { cells := ["u1"] } (ctxOf "u1" false)
        { ID := none, UserID := some 0, Offset := 0, Limit := 5 } ∧
    CanUpdateBookmark (ctxOf "u1" true) (mkBookmark "u1" "My Site" "https://example.com" "")
      = false :=
  ⟨rfl,
    (C13_canFind_ignores_demo_flag { cells := ["u1"] } (ctxOf "u1" true) (ctxOf "u1" false)
      { ID := none, UserID := some 0, Offset := 0, Limit := 5 } rfl).1,
    (C13_canFind_ignores_demo_flag { cells := ["u1"] } (ctxOf "u1" true) (ctxOf "u1" false)
      { ID := none, UserID := some 0, Offset := 0, Limit := 5 } rfl).2
      { ID := "u1", IsDemo := true } rfl rfl
      (mkBookmark "u1" "My Site" "https://example.com" "")⟩

end Gobmarks
